import Mathlib

/-!
Verification of the step-checking engine in `backend/main/text.py`.

The Python module is embedded shallowly:

* Python runtime values that flow out of a step's `check` method are modelled by `PyVal`
  (`None`, booleans, and the `dict(message=...)` payloads the module builds).
* A submission's source text is embedded by its parse outcome: `Src := Option PyTree`,
  where `PyTree` models the Python `ast` nodes the checks look at, and `parseSrc`
  models `ast.parse` (raising `SyntaxError` exactly when the source does not parse).
  Lower-casing the source text (`self.input.lower()`) corresponds to lower-casing
  every identifier and string literal of its tree (`PyTree.lower`).
* Exceptions are modelled with `Except`: the only exception class that the code in
  scope raises and catches is `SyntaxError` (`SyntaxErr` here).
* `main.exercises.check_exercise` and `main.exercises.generate_for_type` live outside
  the given sources; `check_exercise` outcomes are carried as opaque function fields,
  `generate_for_type` is modelled from the spec (see its doc comment).
-/

set_option autoImplicit false

deriving instance DecidableEq for Except

/-- Python values returned by a step's `check`: `None`, a `bool`, or a
`dict(message=...)` payload (all dicts built by the module have this single-key shape,
so a dict is represented by its message string). -/
inductive PyVal where
  | none
  | bool (b : Bool)
  | dict (message : String)
deriving DecidableEq, Repr

/-- Python truthiness of the values in scope: `None` is falsy, a `dict(message=...)`
is a non-empty dict and hence truthy. -/
def truthy : PyVal → Bool
  | PyVal.none => false
  | PyVal.bool b => b
  | PyVal.dict _ => true

/-- Python `==` on the values in scope: values of different kinds compare unequal
(in particular a dict never equals a bool, and `None` never equals a bool). -/
def pyEq : PyVal → PyVal → Bool
  | PyVal.none, PyVal.none => true
  | PyVal.bool a, PyVal.bool b => a == b
  | PyVal.dict a, PyVal.dict b => a == b
  | _, _ => false

/-- `isinstance(result, dict)`. -/
def PyVal.isDict : PyVal → Bool
  | PyVal.dict _ => true
  | _ => false

/-- Lines 260-261 of `text.py`: `if not isinstance(result, dict): result = bool(result)`. -/
def normalized_result (v : PyVal) : PyVal :=
  if v.isDict then v else PyVal.bool (truthy v)

/-- The one exception class raised and caught by the code in scope (`ast.parse` raising,
`Page.check_step` catching). -/
inductive SyntaxErr where
  | syntaxError
deriving DecidableEq, Repr

/-- Python syntax trees, as far as the structural checks look at them.  Child lists of
the Python `ast` are curried into binary constructors (`call` takes one argument per
nesting, statement lists are built with `seq`/`nil`).  `hole` is an `astcheck` template
wildcard: it may appear in a template and accepts any sub-tree. -/
inductive PyTree where
  | name (id : String)
  | strlit (s : String)
  | numlit (n : Int)
  | call (f : PyTree) (arg : PyTree)
  | seq (s1 : PyTree) (s2 : PyTree)
  | nil
  | hole
deriving DecidableEq, Repr

/-- `astcheck.is_ast_like sample template`: node kinds must align structurally and
literal values must be equal, but a template wildcard accepts any sub-tree. -/
def is_ast_like : PyTree → PyTree → Bool
  | _, PyTree.hole => true
  | PyTree.name a, PyTree.name b => a == b
  | PyTree.strlit a, PyTree.strlit b => a == b
  | PyTree.numlit a, PyTree.numlit b => a == b
  | PyTree.call f a, PyTree.call g b => is_ast_like f g && is_ast_like a b
  | PyTree.seq a b, PyTree.seq c d => is_ast_like a c && is_ast_like b d
  | PyTree.nil, PyTree.nil => true
  | _, _ => false

/-- Character-wise lower-casing, as `str.lower()` does it (stated on the character
list so that it evaluates by reduction). -/
def strLower (s : String) : String := String.mk (s.data.map Char.toLower)

/-- Lower-casing a source text, seen on its tree: identifiers and string literals are
lower-cased, everything else is unchanged. -/
def PyTree.lower : PyTree → PyTree
  | PyTree.name id => PyTree.name (strLower id)
  | PyTree.strlit s => PyTree.strlit (strLower s)
  | PyTree.numlit n => PyTree.numlit n
  | PyTree.call f a => PyTree.call f.lower a.lower
  | PyTree.seq a b => PyTree.seq a.lower b.lower
  | PyTree.nil => PyTree.nil
  | PyTree.hole => PyTree.hole

/-- A source text, embedded by its parse outcome: `some t` parses to the tree `t`,
`none` fails to parse. -/
abbrev Src := Option PyTree

/-- `str.lower()` on a source text (lower-casing never changes whether the text parses). -/
def Src.lower (s : Src) : Src := s.map PyTree.lower

/-- `ast.parse`: returns the tree, raising `SyntaxError` when the source does not parse. -/
def parseSrc : Src → Except SyntaxErr PyTree
  | some t => Except.ok t
  | Option.none => Except.error SyntaxErr.syntaxError

/-- A name bound in `console.locals`: either a plain function with its declared
parameter names (`inspect.isfunction` is true), or any non-function value. -/
inductive Binding where
  | func (params : List String)
  | nonfunc

/-- The arguments a step instance is built from (`Step.__init__`):
`code_entry['input']`, the output, `code_entry['source']`, and the console, of which
the checks only consult `console.locals`. -/
structure Submission where
  input : Src
  output : String
  code_source : String
  consoleLocals : List (String × Binding)

/-- A nested message step, after `clean_step_class` has processed it.  `name` is the
inner class's member name (the key `inspect.getmembers` sorts by); `check` is the
message step's own `check`, run by `MessageStep.check_message` on the same submission
arguments; `message()` returns `dict(message=cls.text)`. -/
structure MessageSpec where
  name : String
  after_success : Bool
  text : String
  check : Submission → Except SyntaxErr PyVal

/-- A step as `check_with_messages` sees it: its `expected_code_source` attribute,
its `check` method, and its `messages` list. -/
structure StepSpec where
  expected_code_source : Option String
  check : Submission → Except SyntaxErr PyVal
  messages : List MessageSpec

/-- The message-dispatch loop of `check_with_messages` (lines 262-264):
`if result == message_cls.after_success and message_cls.check_message(self):
return message_cls.message()`.  Python's `and` short-circuits, so a message's own
check runs only when the equality holds. -/
def dispatchMessages (a : Submission) (result : PyVal) : List MessageSpec → Except SyntaxErr PyVal
  | [] => Except.ok result
  | m :: ms =>
    if pyEq result (PyVal.bool m.after_success) then
      match m.check a with
      | Except.error e => Except.error e
      | Except.ok r => if truthy r then Except.ok (PyVal.dict m.text) else dispatchMessages a result ms
    else dispatchMessages a result ms

/-- `Step.check_with_messages` (lines 255-265). -/
def Step.check_with_messages (s : StepSpec) (a : Submission) : Except SyntaxErr PyVal :=
  -- if self.expected_code_source not in (None, self.code_source): return False
  if (match s.expected_code_source with
      | Option.none => false
      | some e => e != a.code_source) then
    Except.ok (PyVal.bool false)
  else
    match s.check a with
    | Except.error e => Except.error e
    | Except.ok raw => dispatchMessages a (normalized_result raw) s.messages

/-- `Page.check_step` (lines 218-225): run `check_with_messages`, catching
`SyntaxError` and returning `False` in that case. -/
def Page.check_step (s : StepSpec) (a : Submission) : PyVal :=
  match Step.check_with_messages s a with
  | Except.ok v => v
  | Except.error _ => PyVal.bool false

/-- The advisory shown when only the lower-cased comparison succeeds
(lines 284-289; the wording is abridged). -/
def case_sensitive_message : String :=
  "Python is case sensitive! That means that small and capital letters matter and changing them changes the meaning of the program."

/-- `Step.tree_matches` (lines 279-289).  Python evaluates `self.tree` (parsing the
input) before `ast.parse(template)`; when the case-sensitive comparison fails it
retries on the lower-cased texts; when neither matches the method falls through,
returning `None`. -/
def Step.tree_matches (input : Src) (template : Src) : Except SyntaxErr PyVal :=
  match parseSrc input with
  | Except.error e => Except.error e
  | Except.ok t =>
    match parseSrc template with
    | Except.error e => Except.error e
    | Except.ok tm =>
      if is_ast_like t tm then Except.ok (PyVal.bool true)
      else
        match parseSrc input.lower with
        | Except.error e => Except.error e
        | Except.ok tl =>
          match parseSrc template.lower with
          | Except.error e => Except.error e
          | Except.ok tml =>
            if is_ast_like tl tml then Except.ok (PyVal.dict case_sensitive_message)
            else Except.ok PyVal.none

/-- `VerbatimStep.check` (lines 393-397): `return self.matches_program()`, i.e.
`tree_matches` of the input against the step's program. -/
def VerbatimStep.check (program : Src) (a : Submission) : Except SyntaxErr PyVal :=
  Step.tree_matches a.input program

/-- A `VerbatimStep` as seen by `check_with_messages`. -/
def VerbatimStep.toStep (program : Src) (expected : Option String) (msgs : List MessageSpec) : StepSpec :=
  { expected_code_source := expected
    check := VerbatimStep.check program
    messages := msgs }

/-- `basic_signature` (lines 57-62): the comma-joined parameter names, parenthesized. -/
def basic_signature (param_names : List String) (remove_first : Bool) : String :=
  let param_names := if remove_first then param_names.drop 1 else param_names
  "(" ++ String.intercalate ", " param_names ++ ")"

/-- The parameter types the Input Generator deals with. -/
inductive PyType where
  | int
  | bool
  | str
  | list (elem : PyType)
  | unsupported
deriving DecidableEq, Repr

/-- A declared parameter of the reference solution: its name and its type
annotation, when it has one. -/
structure Param where
  pname : String
  annot : Option PyType
deriving DecidableEq, Repr

/-- The reference solution function as `clean_step_class` stores it on the class
(`cls.solution = get_solution_function(solution)`): its `__name__` and its declared
parameters, the first of which is the context parameter (`_` or `self`). -/
structure SolutionFunc where
  fname : String
  params : List Param
deriving DecidableEq, Repr

/-- An `ExerciseStep`'s data: the reference solution, plus the outcomes of the two
calls into `main.exercises.check_exercise`, which is not among the given sources and
is therefore carried opaquely: the `functionise=True` call on the raw submission, and
the call on the function found in `console.locals` (given its parameter names). -/
structure ExerciseStepSpec where
  solution : SolutionFunc
  check_exercise_functionise : Submission → Except SyntaxErr PyVal
  check_exercise_func : List String → Except SyntaxErr PyVal

/-- `ExerciseStep.check` (lines 317-355).  Note `self.solution` is a bound method, so
`inspect.signature(self.solution)` — and with it `basic_signature(self.solution)` —
already omits the leading context parameter; that is rendered here by dropping the
first declared parameter name. -/
def ExerciseStep.check (ex : ExerciseStepSpec) (a : Submission) : Except SyntaxErr PyVal :=
  if a.code_source = "shell" then Except.ok (PyVal.bool false)
  else
    let function_name := ex.solution.fname
    if function_name = "solution" then
      ex.check_exercise_functionise a
    else
      match a.consoleLocals.lookup function_name with
      | Option.none =>
        Except.ok (PyVal.dict ("You must define a function `" ++ function_name ++ "`"))
      | some Binding.nonfunc =>
        Except.ok (PyVal.dict ("`" ++ function_name ++ "` is not a function."))
      | some (Binding.func params) =>
        let actual_signature := basic_signature params false
        let needed_signature := basic_signature ((ex.solution.params.map Param.pname).drop 1) false
        if actual_signature != needed_signature then
          Except.ok (PyVal.dict ("The signature should be:\n\n    def " ++ function_name
            ++ needed_signature ++ ":\n\nnot:\n\n    def " ++ function_name
            ++ actual_signature ++ ":"))
        else ex.check_exercise_func params

/-- An `ExerciseStep` as seen by `check_with_messages`. -/
def ExerciseStep.toStep (ex : ExerciseStepSpec) (expected : Option String)
    (msgs : List MessageSpec) : StepSpec :=
  { expected_code_source := expected
    check := ExerciseStep.check ex
    messages := msgs }

/-- `typing.get_type_hints(cls.solution)`: the annotated parameters with their
annotations, in declaration order — a parameter without an annotation is simply
absent from the result.  (The solutions in scope carry no return annotation, so
none is modelled.) -/
def get_type_hints (sol : SolutionFunc) : List (String × PyType) :=
  sol.params.filterMap (fun p => p.annot.map (fun t => (p.pname, t)))

/-- The Input Generator's failure: a type it cannot synthesize a value for. -/
inductive GenFault where
  | typeNotSupported
deriving DecidableEq, Repr

/-- Synthetic test-input values. -/
inductive GenValue where
  | intv (n : Int)
  | strv (s : String)
  | boolv (b : Bool)
  | listv (l : List GenValue)

/-- Modelled from the spec: `generate_for_type` is defined in `main.exercises`, which
is not among the given sources.  Spec 4.2: for each declared parameter type produce
one representative value — a short numeric value for numeric types, a short textual
value for text types, a small homogeneous sequence for sequence types — and fail with
a TypeNotSupported-kind diagnostic for a type it cannot synthesize a value for. -/
def generate_for_type : PyType → Except GenFault GenValue
  | PyType.int => Except.ok (GenValue.intv 3)
  | PyType.bool => Except.ok (GenValue.boolv true)
  | PyType.str => Except.ok (GenValue.strv "ab")
  | PyType.list t =>
    match generate_for_type t with
    | Except.error e => Except.error e
    | Except.ok v => Except.ok (GenValue.listv [v, v])
  | PyType.unsupported => Except.error GenFault.typeNotSupported

/-- The dict comprehension of `ExerciseStep.generate_inputs`, in the iteration order
of `get_type_hints`. -/
def generate_inputs_list : List (String × PyType) → Except GenFault (List (String × GenValue))
  | [] => Except.ok []
  | (n, t) :: rest =>
    match generate_for_type t with
    | Except.error e => Except.error e
    | Except.ok v =>
      match generate_inputs_list rest with
      | Except.error e => Except.error e
      | Except.ok vs => Except.ok ((n, v) :: vs)

/-- `ExerciseStep.generate_inputs` (lines 385-390). -/
def ExerciseStep.generate_inputs (sol : SolutionFunc) : Except GenFault (List (String × GenValue)) :=
  generate_inputs_list (get_type_hints sol)

/-- Lexicographic comparison of character lists by code point, as Python compares
strings. -/
def charListLe : List Char → List Char → Bool
  | [], _ => true
  | _ :: _, [] => false
  | a :: as, b :: bs =>
    if a.toNat < b.toNat then true
    else if b.toNat < a.toNat then false
    else charListLe as bs

/-- Python's `<=` on strings: code-point lexicographic order. -/
def strLe (a b : String) : Bool := charListLe a.data b.data

/-- Stable ascending insertion by member name: `inspect.getmembers` returns the
class members sorted by name (Python's stable `sort` on the name). -/
def insertByName (m : MessageSpec) : List MessageSpec → List MessageSpec
  | [] => [m]
  | x :: xs => if strLe m.name x.name then m :: x :: xs else x :: insertByName m xs

/-- Insertion sort by member name (stable and ascending, like Python's `sort`). -/
def sortByName : List MessageSpec → List MessageSpec
  | [] => []
  | x :: xs => insertByName x (sortByName xs)

/-- Lines 110-137 of `clean_step_class`: the nested `MessageStep` classes are
discovered with `inspect.getmembers(cls)`, which yields members sorted by member
name — not in declaration order — and appended to `cls.messages` in that order. -/
def collected_messages (inner : List MessageSpec) : List MessageSpec :=
  sortByName inner

/-- Python `or` on strings: the first operand when truthy (non-empty), else the second. -/
def pyOr (a b : String) : String := if a != "" then a else b

/-- Whether `pat` occurs in `s` (Python `pat in s`). -/
def containsSub (s pat : String) : Bool := (s.splitOn pat).length != 1

/-- `indent(program, morespace)` with four spaces: prefix the non-empty lines. -/
def indent4 (s : String) : String :=
  String.intercalate "\n" ((s.splitOn "\n").map (fun l => if l = "" then l else "    " ++ l))

/-- The `markdown` renderer is an external collaborator (spec section 1 puts content
rendering out of scope, specified only at its boundary); it is modelled as the
identity on the text. -/
def markdown (s : String) : String := s

/-- A build-time fault: a failing `assert` in `clean_step_class` (the spec's
AuthoringFault).  The payload names the asserted condition. -/
inductive AuthoringFault where
  | assertFailed (cond : String)
deriving DecidableEq, Repr

/-- A step class declaration as `clean_step_class` receives it.  `solutionSource` is
the program text that `clean_program` derives from the solution function via
`inspect.getsource`; the derivation itself happens outside the model and its result
is carried by the declaration. -/
structure StepClassDecl where
  text : String
  doc : String
  program : String
  hasSolution : Bool
  solutionSource : String
  tests : List (List (String × Int) × Int)
  hints : List String
  program_in_text : Bool
  innerMessages : List MessageSpec

/-- The attributes `clean_step_class` writes back with `setattrs`. -/
structure NormalizedStep where
  text : String
  program : String
  messages : List MessageSpec
  hints : List String

/-- `clean_step_class` (lines 74-143).  A failing `assert` aborts startup, since the
function runs at class-definition time from `PageMeta.__init__`.
Not modelled, as none of it can un-fail or re-order the asserts: the
`no_weird_whitespace` util (external, `main.utils`), the `compile` validity check
inside `clean_program`, `dedent`, the space-consuming regex around
`__program_indented__`, the splitting of a string-valued `hints`, and the recursive
cleaning / build-time cross-checking of the inner message classes. -/
def clean_step_class (decl : StepClassDecl) : Except AuthoringFault NormalizedStep :=
  let text := pyOr decl.text decl.doc
  -- assert bool(solution) ^ bool(program)
  if !(Bool.xor decl.hasSolution (decl.program != "")) then
    Except.error (AuthoringFault.assertFailed "bool(solution) ^ bool(program)")
  -- assert text
  else if text = "" then Except.error (AuthoringFault.assertFailed "text")
  -- if solution: assert cls.tests
  else if decl.hasSolution && decl.tests.isEmpty then
    Except.error (AuthoringFault.assertFailed "cls.tests")
  else
    -- program = clean_program(...): derived from the solution, or the fixed program
    -- dedented and stripped
    let program := if decl.hasSolution then decl.solutionSource.trim else decl.program.trim
    -- assert program
    if program = "" then Except.error (AuthoringFault.assertFailed "program")
    else
      let hints := decl.hints.map markdown
      if containsSub text "__program_" then
        let text := (text.replace "__program__" program).replace "__program_indented__"
          (indent4 program)
        -- assert "__program_" not in text
        if containsSub text "__program_" then
          Except.error (AuthoringFault.assertFailed "__program_ not in text")
        else
          Except.ok { text := markdown text.trim, program := program,
                      messages := collected_messages decl.innerMessages, hints := hints }
      -- assert not cls.program_in_text
      else if decl.program_in_text then
        Except.error (AuthoringFault.assertFailed "program_in_text")
      else
        Except.ok { text := markdown text.trim, program := program,
                    messages := collected_messages decl.innerMessages, hints := hints }

/-- Claim C1's wording of the dispatch: the nested Message Steps scanned in
declaration order.  Stated for comparison with the source behavior, which scans them
in `inspect.getmembers` (member-name) order. -/
def check_with_messages_in_declaration_order (expected : Option String)
    (chk : Submission → Except SyntaxErr PyVal) (inner : List MessageSpec)
    (a : Submission) : Except SyntaxErr PyVal :=
  Step.check_with_messages
    { expected_code_source := expected, check := chk, messages := inner } a

/-- Claim C2's wording of the dispatch: the raw result of `check()` is always reduced
to a boolean before the Message Steps are consulted.  Stated for comparison with
`Step.check_with_messages`, which normalizes only non-dict results. -/
def check_with_messages_always_bool (s : StepSpec) (a : Submission) : Except SyntaxErr PyVal :=
  if (match s.expected_code_source with
      | Option.none => false
      | some e => e != a.code_source) then
    Except.ok (PyVal.bool false)
  else
    match s.check a with
    | Except.error e => Except.error e
    | Except.ok raw => dispatchMessages a (PyVal.bool (truthy raw)) s.messages

/- Concrete inputs used by the counterexamples and witnesses below. -/

/-- A message step named to sort after `c1_msg_a` although declared before it. -/
def c1_msg_z : MessageSpec :=
  { name := "z_first_declared", after_success := false, text := "z message",
    check := fun _ => Except.ok (PyVal.bool true) }

/-- A message step named to sort before `c1_msg_z` although declared after it. -/
def c1_msg_a : MessageSpec :=
  { name := "a_second_declared", after_success := false, text := "a message",
    check := fun _ => Except.ok (PyVal.bool true) }

/-- The inner message classes of the C1 counterexample, in declaration order. -/
def c1_inner : List MessageSpec := [c1_msg_z, c1_msg_a]

/-- A raw check that fails, so that both messages (firing on failure) are candidates. -/
def c1_check : Submission → Except SyntaxErr PyVal := fun _ => Except.ok (PyVal.bool false)

def c1_sub : Submission :=
  { input := some PyTree.nil, output := "", code_source := "editor", consoleLocals := [] }

/-- A message step firing after success, for the C1 witness. -/
def c1w_message : MessageSpec :=
  { name := "success_note", after_success := true, text := "style note",
    check := fun _ => Except.ok (PyVal.bool true) }

def c1w_sub : Submission :=
  { input := some PyTree.nil, output := "", code_source := "editor", consoleLocals := [] }

/-- A message step firing after success, for the C2 counterexample. -/
def c2_message : MessageSpec :=
  { name := "message_on_success", after_success := true, text := "hint after success",
    check := fun _ => Except.ok (PyVal.bool true) }

/-- A step whose raw check returns a structured diagnostic dict. -/
def c2_step : StepSpec :=
  { expected_code_source := Option.none,
    check := fun _ => Except.ok (PyVal.dict "structured diagnostic"),
    messages := [c2_message] }

def c2_sub : Submission :=
  { input := some PyTree.nil, output := "", code_source := "editor", consoleLocals := [] }

/-- A step whose raw check returns `None` (no structural match), for the C2 witness. -/
def c2w_step : StepSpec :=
  { expected_code_source := Option.none,
    check := fun _ => Except.ok (PyVal.dict "some diagnostic"),
    messages := [] }

def c2w_sub : Submission :=
  { input := some PyTree.nil, output := "", code_source := "editor", consoleLocals := [] }

/-- An exercise step checking the learner-defined function `double`. -/
def c3_exercise : ExerciseStepSpec :=
  { solution := { fname := "double", params := [⟨"_", Option.none⟩, ⟨"x", Option.none⟩] },
    check_exercise_functionise := fun _ => Except.ok (PyVal.bool false),
    check_exercise_func := fun _ => Except.ok (PyVal.bool false) }

/-- A submission whose source fails to parse, run against `c3_exercise`. -/
def c3_sub : Submission :=
  { input := Option.none, output := "", code_source := "editor", consoleLocals := [] }

/-- A verbatim step's unparseable submission, for the C3 witness. -/
def c3w_sub : Submission :=
  { input := Option.none, output := "", code_source := "editor", consoleLocals := [] }

/-- An exercise step whose solution names a learner-defined function, for C5. -/
def c5_exercise : ExerciseStepSpec :=
  { solution := { fname := "double", params := [⟨"_", Option.none⟩, ⟨"x", Option.none⟩] },
    check_exercise_functionise := fun _ => Except.ok (PyVal.bool true),
    check_exercise_func := fun _ => Except.ok (PyVal.bool true) }

/-- A submission with no binding for `double` in the console locals. -/
def c5_sub : Submission :=
  { input := some PyTree.nil, output := "", code_source := "editor", consoleLocals := [] }

/-- A reference solution whose learner-visible parameter `x` has no annotation. -/
def c6_solution : SolutionFunc :=
  { fname := "double", params := [⟨"_", Option.none⟩, ⟨"x", Option.none⟩] }

/-- A reference solution with a parameter annotated with an unsupported type. -/
def c6w_solution : SolutionFunc :=
  { fname := "f", params := [⟨"_", Option.none⟩, ⟨"y", some PyType.unsupported⟩] }

def c7_sub : Submission :=
  { input := some PyTree.nil, output := "", code_source := "shell", consoleLocals := [] }

/-- A step declaration setting both a solution and a fixed program. -/
def c8_decl : StepClassDecl :=
  { text := "step text", doc := "", program := "print(1)", hasSolution := true,
    solutionSource := "def double(x):\n    return x * 2",
    tests := [([("x", 3)], 6)], hints := [], program_in_text := false,
    innerMessages := [] }

def c9_sub : Submission :=
  { input := some PyTree.nil, output := "", code_source := "shell",
    consoleLocals := [("double", Binding.func ["x"])] }

/-- An exercise step for the C9 witness, with check-exercise outcomes that would
succeed were they consulted. -/
def c9_exercise : ExerciseStepSpec :=
  { solution := { fname := "double", params := [⟨"_", Option.none⟩, ⟨"x", Option.none⟩] },
    check_exercise_functionise := fun _ => Except.ok (PyVal.bool true),
    check_exercise_func := fun _ => Except.ok (PyVal.bool true) }

/-- A verbatim step on a non-matching submission, for the C10 witness: the raw
`tree_matches` returns `None`, which must surface as `False`. -/
def c10_step : StepSpec :=
  VerbatimStep.toStep (some (PyTree.name "x")) Option.none []

def c10_sub : Submission :=
  { input := some (PyTree.name "y"), output := "", code_source := "editor",
    consoleLocals := [] }

/-- Whether a message step's dual condition holds: its `after_success` equals the
outcome AND its own re-check (on the same submission) returns a truthy value. -/
def msgFires (a : Submission) (outcome : PyVal) (m : MessageSpec) : Bool :=
  pyEq outcome (PyVal.bool m.after_success) &&
    (match m.check a with
     | Except.ok v => truthy v
     | Except.error _ => false)

/-- Whether a message step is passed over without raising: its `after_success`
differs from the outcome, or its re-check returns a falsy value. -/
def msgSkips (a : Submission) (outcome : PyVal) (m : MessageSpec) : Bool :=
  !pyEq outcome (PyVal.bool m.after_success) ||
    (match m.check a with
     | Except.ok v => !truthy v
     | Except.error _ => false)

/- Helper lemmas. -/

theorem is_ast_like_refl : ∀ t : PyTree, is_ast_like t t = true := by
  intro t
  induction t with
  | name a => simp [is_ast_like]
  | strlit s => simp [is_ast_like]
  | numlit n => simp [is_ast_like]
  | call f a ihf iha => simp [is_ast_like, ihf, iha]
  | seq a b iha ihb => simp [is_ast_like, iha, ihb]
  | nil => simp [is_ast_like]
  | hole => simp [is_ast_like]

theorem check_with_messages_guard (s : StepSpec) (a : Submission)
    (h : s.expected_code_source = Option.none ∨ s.expected_code_source = some a.code_source) :
    Step.check_with_messages s a =
      match s.check a with
      | Except.error e => Except.error e
      | Except.ok raw => dispatchMessages a (normalized_result raw) s.messages := by
  unfold Step.check_with_messages
  rcases h with h | h <;> rw [h] <;> simp

theorem dispatchMessages_skip (a : Submission) (result : PyVal) (m : MessageSpec)
    (ms : List MessageSpec) (h : msgSkips a result m = true) :
    dispatchMessages a result (m :: ms) = dispatchMessages a result ms := by
  unfold msgSkips at h
  cases hpe : pyEq result (PyVal.bool m.after_success) with
  | false => simp [dispatchMessages, hpe]
  | true =>
    rw [hpe] at h
    cases hc : m.check a with
    | error e => rw [hc] at h; simp at h
    | ok v =>
      rw [hc] at h
      simp at h
      simp [dispatchMessages, hpe, hc, h]

theorem dispatchMessages_fire (a : Submission) (result : PyVal) (m : MessageSpec)
    (ms : List MessageSpec) (h : msgFires a result m = true) :
    dispatchMessages a result (m :: ms) = Except.ok (PyVal.dict m.text) := by
  unfold msgFires at h
  rcases Bool.and_eq_true_iff.mp h with ⟨hpe, hck⟩
  cases hc : m.check a with
  | error e => rw [hc] at hck; simp at hck
  | ok v =>
    rw [hc] at hck
    have hv : truthy v = true := hck
    simp [dispatchMessages, hpe, hc, hv]

theorem dispatchMessages_first (a : Submission) (result : PyVal)
    (pre : List MessageSpec) (m : MessageSpec) (post : List MessageSpec)
    (hpre : ∀ m' ∈ pre, msgSkips a result m' = true) (hm : msgFires a result m = true) :
    dispatchMessages a result (pre ++ m :: post) = Except.ok (PyVal.dict m.text) := by
  induction pre with
  | nil => simpa using dispatchMessages_fire a result m post hm
  | cons x xs ih =>
    rw [List.cons_append, dispatchMessages_skip a result x _ (hpre x (by simp))]
    exact ih (fun m' hm' => hpre m' (by simp [hm']))

theorem dispatchMessages_none_fire (a : Submission) (result : PyVal)
    (msgs : List MessageSpec) (h : ∀ m ∈ msgs, msgSkips a result m = true) :
    dispatchMessages a result msgs = Except.ok result := by
  induction msgs with
  | nil => rfl
  | cons x xs ih =>
    rw [dispatchMessages_skip a result x xs (h x (by simp))]
    exact ih (fun m hm => h m (by simp [hm]))

theorem dispatchMessages_dict (a : Submission) (d : String) (msgs : List MessageSpec) :
    dispatchMessages a (PyVal.dict d) msgs = Except.ok (PyVal.dict d) := by
  induction msgs with
  | nil => rfl
  | cons x xs ih => simp [dispatchMessages, pyEq, ih]

theorem dispatchMessages_shape (a : Submission) (result : PyVal) (msgs : List MessageSpec)
    (v : PyVal) (h : dispatchMessages a result msgs = Except.ok v) :
    v = result ∨ ∃ m ∈ msgs, v = PyVal.dict m.text := by
  induction msgs with
  | nil =>
    left
    have : Except.ok (ε := SyntaxErr) result = Except.ok v := h
    simpa using this.symm
  | cons x xs ih =>
    unfold dispatchMessages at h
    cases hpe : pyEq result (PyVal.bool x.after_success) with
    | false =>
      rw [hpe] at h
      simp only [Bool.false_eq_true, if_false] at h
      rcases ih h with h1 | ⟨m, hmem, h2⟩
      · exact Or.inl h1
      · exact Or.inr ⟨m, by simp [hmem], h2⟩
    | true =>
      rw [hpe] at h
      simp only [if_true] at h
      cases hc : x.check a with
      | error e => rw [hc] at h; simp at h
      | ok r =>
        rw [hc] at h
        have h' : (if truthy r = true then Except.ok (PyVal.dict x.text)
            else dispatchMessages a result xs) = Except.ok v := h
        cases htr : truthy r with
        | true =>
          rw [htr] at h'
          simp only [if_true] at h'
          right
          exact ⟨x, by simp, by simpa using (Except.ok.inj h').symm⟩
        | false =>
          rw [htr] at h'
          simp only [Bool.false_eq_true, if_false] at h'
          rcases ih h' with h1 | ⟨m, hmem, h2⟩
          · exact Or.inl h1
          · exact Or.inr ⟨m, by simp [hmem], h2⟩

theorem charListLe_total : ∀ as bs : List Char, charListLe as bs = true ∨ charListLe bs as = true := by
  intro as
  induction as with
  | nil => intro bs; left; rfl
  | cons a as ih =>
    intro bs
    cases bs with
    | nil => right; rfl
    | cons b bs =>
      rcases Nat.lt_trichotomy a.toNat b.toNat with h | h | h
      · left; simp [charListLe, h]
      · have h1 : ¬ a.toNat < b.toNat := by omega
        have h2 : ¬ b.toNat < a.toNat := by omega
        rcases ih bs with h3 | h3
        · left; simp [charListLe, h1, h2, h3]
        · right; simp [charListLe, h1, h2, h3]
      · right; simp [charListLe, h]

theorem strLe_total (a b : String) : strLe a b = true ∨ strLe b a = true :=
  charListLe_total a.data b.data

theorem insertByName_head (m : MessageSpec) (l : List MessageSpec) :
    (insertByName m l).head? = some m ∨ (insertByName m l).head? = l.head? := by
  cases l with
  | nil => left; rfl
  | cons x xs =>
    unfold insertByName
    by_cases h : strLe m.name x.name = true
    · left; simp [h]
    · right; simp [h]

theorem insertByName_chain (m : MessageSpec) (l : List MessageSpec)
    (h : List.Chain' (fun x y => strLe x.name y.name = true) l) :
    List.Chain' (fun x y => strLe x.name y.name = true) (insertByName m l) := by
  induction l with
  | nil => simp [insertByName]
  | cons x xs ih =>
    unfold insertByName
    by_cases hle : strLe m.name x.name = true
    · simp only [hle, if_true]
      exact List.Chain'.cons hle h
    · simp only [hle, if_false]
      have hxm : strLe x.name m.name = true := by
        rcases strLe_total m.name x.name with h1 | h1
        · exact absurd h1 hle
        · exact h1
      have htail := ih (List.Chain'.tail h)
      apply List.chain'_cons'.mpr
      refine ⟨?_, htail⟩
      intro y hy
      rcases insertByName_head m xs with hh | hh
      · rw [hh] at hy
        simp at hy
        subst hy
        exact hxm
      · rw [hh] at hy
        exact (List.chain'_cons'.mp h).1 y hy

theorem sortByName_chain (l : List MessageSpec) :
    List.Chain' (fun x y => strLe x.name y.name = true) (sortByName l) := by
  induction l with
  | nil => simp [sortByName]
  | cons x xs ih => exact insertByName_chain x _ ih

theorem generate_inputs_list_error (l : List (String × PyType)) (nt : String × PyType)
    (hmem : nt ∈ l) (herr : generate_for_type nt.2 = Except.error GenFault.typeNotSupported) :
    generate_inputs_list l = Except.error GenFault.typeNotSupported := by
  induction l with
  | nil => cases hmem
  | cons x xs ih =>
    obtain ⟨n, t⟩ := x
    rcases List.mem_cons.mp hmem with heq | htail
    · subst heq
      unfold generate_inputs_list
      rw [herr]
    · unfold generate_inputs_list
      cases hg : generate_for_type t with
      | error e => cases e; rfl
      | ok v => rw [ih htail]

theorem generate_inputs_list_names (l : List (String × PyType)) (r : List (String × GenValue))
    (h : generate_inputs_list l = Except.ok r) :
    r.map Prod.fst = l.map Prod.fst := by
  induction l generalizing r with
  | nil =>
    have h' : Except.ok (ε := GenFault) ([] : List (String × GenValue)) = Except.ok r := h
    rw [← Except.ok.inj h']
    rfl
  | cons x xs ih =>
    obtain ⟨n, t⟩ := x
    unfold generate_inputs_list at h
    cases hg : generate_for_type t with
    | error e => rw [hg] at h; exact Except.noConfusion h
    | ok v =>
      rw [hg] at h
      cases hr : generate_inputs_list xs with
      | error e => rw [hr] at h; exact Except.noConfusion h
      | ok vs =>
        rw [hr] at h
        rw [← Except.ok.inj h]
        simp [ih vs hr]

/-- C4: a candidate structurally identical to the template matches with `True`; a
candidate that fails the case-sensitive comparison but matches after lower-casing
both sources is answered with the advisory case-mismatch message, not `False`. -/
theorem C4_structural_and_case_match :
    (∀ t : PyTree, Step.tree_matches (some t) (some t) = Except.ok (PyVal.bool true)) ∧
    (∀ t tm : PyTree, is_ast_like t tm = false → is_ast_like t.lower tm.lower = true →
      Step.tree_matches (some t) (some tm) = Except.ok (PyVal.dict case_sensitive_message)) := by
  constructor
  · intro t
    unfold Step.tree_matches
    simp [parseSrc, is_ast_like_refl t]
  · intro t tm h1 h2
    unfold Step.tree_matches
    simp [parseSrc, Src.lower, h1, h2]

/-- Witness for C4 at a concrete input: `Word` differs from the template `word`
only by case, so the advisory fires. -/
theorem C4_witness :
    is_ast_like (PyTree.name "Word") (PyTree.name "word") = false ∧
    Step.tree_matches (some (PyTree.name "Word")) (some (PyTree.name "word")) =
      Except.ok (PyVal.dict case_sensitive_message) :=
  ⟨by decide,
   C4_structural_and_case_match.2 (PyTree.name "Word") (PyTree.name "word")
     (by decide) (by decide)⟩

/-- C5: for an ExerciseStep whose reference solution names a learner-defined
function, each of the three preconditions — the name is bound in the console
locals, the binding is a function, its signature equals the bound reference
solution's signature (the leading context parameter removed by method binding) —
short-circuits on failure with a structured diagnostic dict; the conclusion is a
fixed dict for arbitrary `check_exercise` outcomes, so no test cases are run. -/
theorem C5_exercise_precondition_diagnostics (ex : ExerciseStepSpec) (a : Submission)
    (hshell : a.code_source ≠ "shell") (hname : ex.solution.fname ≠ "solution") :
    (a.consoleLocals.lookup ex.solution.fname = Option.none →
      ExerciseStep.check ex a =
        Except.ok (PyVal.dict ("You must define a function `" ++ ex.solution.fname ++ "`"))) ∧
    (a.consoleLocals.lookup ex.solution.fname = some Binding.nonfunc →
      ExerciseStep.check ex a =
        Except.ok (PyVal.dict ("`" ++ ex.solution.fname ++ "` is not a function."))) ∧
    (∀ params, a.consoleLocals.lookup ex.solution.fname = some (Binding.func params) →
      basic_signature params false ≠
        basic_signature ((ex.solution.params.map Param.pname).drop 1) false →
      ExerciseStep.check ex a =
        Except.ok (PyVal.dict ("The signature should be:\n\n    def " ++ ex.solution.fname
          ++ basic_signature ((ex.solution.params.map Param.pname).drop 1) false
          ++ ":\n\nnot:\n\n    def " ++ ex.solution.fname
          ++ basic_signature params false ++ ":"))) := by
  refine ⟨?_, ?_, ?_⟩
  · intro hl
    unfold ExerciseStep.check
    simp [hshell, hname, hl]
  · intro hl
    unfold ExerciseStep.check
    simp [hshell, hname, hl]
  · intro params hl hsig
    rw [List.drop_one] at hsig
    unfold ExerciseStep.check
    simp [hshell, hname, hl, bne_iff_ne, hsig]

/-- Witness for C5 at a concrete input: no binding for `double` exists, so the
check answers with the "must define" diagnostic and consults no test case. -/
theorem C5_witness :
    c5_sub.consoleLocals.lookup c5_exercise.solution.fname = Option.none ∧
    ExerciseStep.check c5_exercise c5_sub =
      Except.ok (PyVal.dict ("You must define a function `" ++ c5_exercise.solution.fname ++ "`")) :=
  ⟨rfl,
   (C5_exercise_precondition_diagnostics c5_exercise c5_sub (by decide) (by decide)).1 rfl⟩

/-- C7: a step declaring an expected submission origin answers `False` on a
submission of any other origin, whatever its check method and messages would do —
neither is consulted. -/
theorem C7_expected_origin_mismatch (e : String)
    (chk : Submission → Except SyntaxErr PyVal) (msgs : List MessageSpec) (a : Submission)
    (h : e ≠ a.code_source) :
    Step.check_with_messages
      { expected_code_source := some e, check := chk, messages := msgs } a =
      Except.ok (PyVal.bool false) := by
  unfold Step.check_with_messages
  simp [bne_iff_ne, h]

/-- Witness for C7 at a concrete input: origin `shell` against expected `editor`. -/
theorem C7_witness :
    "editor" ≠ c7_sub.code_source ∧
    Step.check_with_messages
      { expected_code_source := some "editor",
        check := fun _ => Except.ok (PyVal.bool true),
        messages := [] } c7_sub = Except.ok (PyVal.bool false) :=
  ⟨by decide,
   C7_expected_origin_mismatch "editor" (fun _ => Except.ok (PyVal.bool true)) [] c7_sub
     (by decide)⟩

/-- C8: `clean_step_class` asserts that exactly one of the solution and the fixed
program is set; a declaration with both or neither fails that first assert, and any
declaration it normalizes successfully satisfies the invariant. -/
theorem C8_exactly_one_of_solution_program (decl : StepClassDecl) :
    (Bool.xor decl.hasSolution (decl.program != "") = false →
      clean_step_class decl =
        Except.error (AuthoringFault.assertFailed "bool(solution) ^ bool(program)")) ∧
    (∀ out, clean_step_class decl = Except.ok out →
      Bool.xor decl.hasSolution (decl.program != "") = true) := by
  constructor
  · intro h
    unfold clean_step_class
    simp [h]
  · intro out h
    by_cases hx : Bool.xor decl.hasSolution (decl.program != "") = true
    · exact hx
    · exfalso
      have hx' : Bool.xor decl.hasSolution (decl.program != "") = false := by
        simpa using hx
      unfold clean_step_class at h
      simp [hx'] at h

/-- Witness for C8 at a concrete input: a declaration setting both a solution and
a fixed program is rejected at build time. -/
theorem C8_witness :
    Bool.xor c8_decl.hasSolution (c8_decl.program != "") = false ∧
    clean_step_class c8_decl =
      Except.error (AuthoringFault.assertFailed "bool(solution) ^ bool(program)") :=
  ⟨by decide, (C8_exactly_one_of_solution_program c8_decl).1 (by decide)⟩

/-- C9: an ExerciseStep answers `False` at once on a submission of origin `shell`,
for every console-locals content and every check-exercise outcome — no lookup,
signature comparison or test execution influences the verdict. -/
theorem C9_shell_immediate_false (ex : ExerciseStepSpec) (a : Submission)
    (h : a.code_source = "shell") :
    ExerciseStep.check ex a = Except.ok (PyVal.bool false) := by
  unfold ExerciseStep.check
  simp [h]

/-- Witness for C9 at a concrete input: the console binds a correct `double` and
the behavioral checks would pass, yet the shell origin forces `False`. -/
theorem C9_witness :
    c9_sub.code_source = "shell" ∧
    ExerciseStep.check c9_exercise c9_sub = Except.ok (PyVal.bool false) :=
  ⟨rfl, C9_shell_immediate_false c9_exercise c9_sub rfl⟩

/-- C10: whenever `check_with_messages` returns without a parse fault, its value
is a boolean or a dict message payload — never `None` or any other value — although
a raw check (`tree_matches` with no match) may produce `None`. -/
theorem C10_verdict_bool_or_dict (s : StepSpec) (a : Submission) (v : PyVal)
    (h : Step.check_with_messages s a = Except.ok v) :
    (∃ b, v = PyVal.bool b) ∨ (∃ msg, v = PyVal.dict msg) := by
  unfold Step.check_with_messages at h
  split at h
  · left
    exact ⟨false, (Except.ok.inj h).symm⟩
  · cases hc : s.check a with
    | error e => rw [hc] at h; exact Except.noConfusion h
    | ok raw =>
      rw [hc] at h
      rcases dispatchMessages_shape a (normalized_result raw) s.messages v h with h1 | ⟨m, _, h2⟩
      · subst h1
        cases raw with
        | none => left; exact ⟨false, rfl⟩
        | bool b => left; exact ⟨b, rfl⟩
        | dict d => right; exact ⟨d, rfl⟩
      · right
        exact ⟨m.text, h2⟩

/-- Witness for C10 at a concrete input: a non-matching verbatim submission, whose
raw check returns `None`, surfaces as the boolean `False`. -/
theorem C10_witness :
    Step.check_with_messages c10_step c10_sub = Except.ok (PyVal.bool false) ∧
    ((∃ b, PyVal.bool false = PyVal.bool b) ∨ (∃ msg, PyVal.bool false = PyVal.dict msg)) :=
  ⟨rfl, C10_verdict_bool_or_dict c10_step c10_sub (PyVal.bool false) rfl⟩

/-- Counterexample to C1 as stated: `c1_inner` declares the message named
`z_first_declared` before the one named `a_second_declared`; both are candidates
(same `after_success`, passing re-check).  With the messages as the code collects
them via `inspect.getmembers` — sorted by member name — the `a_second_declared`
message wins, while scanning in declaration order would pick `z_first_declared`. -/
theorem C1_counterexample :
    Step.check_with_messages
      { expected_code_source := Option.none, check := c1_check,
        messages := collected_messages c1_inner } c1_sub = Except.ok (PyVal.dict "a message") ∧
    check_with_messages_in_declaration_order Option.none c1_check c1_inner c1_sub =
      Except.ok (PyVal.dict "z message") ∧
    ("a message" : String) ≠ "z message" :=
  ⟨rfl, rfl, by decide⟩

/-- C1 amended: the nested Message Steps are scanned in ascending member-name
order (the order `inspect.getmembers` collects them in), not declaration order; the
first whose `after_success` equals the outcome AND whose own re-check passes gives
the final verdict as its structured message; if none qualifies, the raw (normalized)
check result stands. -/
theorem C1_amended_message_dispatch :
    (∀ (expected : Option String) (chk : Submission → Except SyntaxErr PyVal)
        (inner : List MessageSpec) (a : Submission) (raw : PyVal)
        (pre : List MessageSpec) (m : MessageSpec) (post : List MessageSpec),
      (expected = Option.none ∨ expected = some a.code_source) →
      chk a = Except.ok raw →
      collected_messages inner = pre ++ m :: post →
      (∀ m' ∈ pre, msgSkips a (normalized_result raw) m' = true) →
      msgFires a (normalized_result raw) m = true →
      Step.check_with_messages
        { expected_code_source := expected, check := chk,
          messages := collected_messages inner } a = Except.ok (PyVal.dict m.text)) ∧
    (∀ (expected : Option String) (chk : Submission → Except SyntaxErr PyVal)
        (inner : List MessageSpec) (a : Submission) (raw : PyVal),
      (expected = Option.none ∨ expected = some a.code_source) →
      chk a = Except.ok raw →
      (∀ m ∈ collected_messages inner, msgSkips a (normalized_result raw) m = true) →
      Step.check_with_messages
        { expected_code_source := expected, check := chk,
          messages := collected_messages inner } a = Except.ok (normalized_result raw)) ∧
    (∀ inner : List MessageSpec,
      List.Chain' (fun x y => strLe x.name y.name = true) (collected_messages inner)) := by
  refine ⟨?_, ?_, ?_⟩
  · intro expected chk inner a raw pre m post hg hchk hsplit hpre hm
    rw [check_with_messages_guard _ a hg]
    have hc : StepSpec.check
        { expected_code_source := expected, check := chk,
          messages := collected_messages inner } a = Except.ok raw := hchk
    rw [hc]
    show dispatchMessages a (normalized_result raw) (collected_messages inner) =
      Except.ok (PyVal.dict m.text)
    rw [hsplit]
    exact dispatchMessages_first a (normalized_result raw) pre m post hpre hm
  · intro expected chk inner a raw hg hchk hall
    rw [check_with_messages_guard _ a hg]
    have hc : StepSpec.check
        { expected_code_source := expected, check := chk,
          messages := collected_messages inner } a = Except.ok raw := hchk
    rw [hc]
    exact dispatchMessages_none_fire a (normalized_result raw) (collected_messages inner) hall
  · intro inner
    exact sortByName_chain inner

/-- Witness for C1 at a concrete input: a single success message, collected and
fired on a succeeding raw check. -/
theorem C1_witness :
    msgFires c1w_sub (normalized_result (PyVal.bool true)) c1w_message = true ∧
    Step.check_with_messages
      { expected_code_source := Option.none, check := fun _ => Except.ok (PyVal.bool true),
        messages := collected_messages [c1w_message] } c1w_sub =
      Except.ok (PyVal.dict c1w_message.text) :=
  ⟨by decide,
   C1_amended_message_dispatch.1 Option.none (fun _ => Except.ok (PyVal.bool true))
     [c1w_message] c1w_sub (PyVal.bool true) [] c1w_message []
     (Or.inl rfl) rfl rfl (by simp) (by decide)⟩

/-- Counterexample to C2 as stated: the raw check of `c2_step` returns a structured
dict.  The code leaves it unnormalized, so it matches no boolean `after_success` and
is returned as is; dispatch that always reduces the outcome to a boolean first (the
claim's wording, `check_with_messages_always_bool`) would instead fire the success
message.  The two disagree at this input. -/
theorem C2_counterexample :
    Step.check_with_messages c2_step c2_sub = Except.ok (PyVal.dict "structured diagnostic") ∧
    check_with_messages_always_bool c2_step c2_sub = Except.ok (PyVal.dict "hint after success") ∧
    Step.check_with_messages c2_step c2_sub ≠ check_with_messages_always_bool c2_step c2_sub :=
  ⟨rfl, rfl, by decide⟩

/-- C2 amended: the dispatcher reduces the raw result of `check()` to a boolean
only when the result is not a dict; a structured dict is passed through the message
dispatch unchanged, and since a dict never equals a boolean `after_success` flag it
is returned as the final verdict. -/
theorem C2_amended_normalization (s : StepSpec) (a : Submission)
    (hguard : s.expected_code_source = Option.none ∨ s.expected_code_source = some a.code_source) :
    (∀ d, s.check a = Except.ok (PyVal.dict d) →
      Step.check_with_messages s a = Except.ok (PyVal.dict d)) ∧
    (∀ raw, s.check a = Except.ok raw → raw.isDict = false →
      Step.check_with_messages s a = dispatchMessages a (PyVal.bool (truthy raw)) s.messages) := by
  constructor
  · intro d h
    rw [check_with_messages_guard s a hguard, h]
    exact dispatchMessages_dict a d s.messages
  · intro raw h hd
    rw [check_with_messages_guard s a hguard, h]
    show dispatchMessages a (normalized_result raw) s.messages = _
    rw [show normalized_result raw = PyVal.bool (truthy raw) by
      unfold normalized_result; rw [hd]; simp]

/-- Witness for C2 at a concrete input: a dict-valued raw check passes through
unchanged. -/
theorem C2_witness :
    c2w_step.check c2w_sub = Except.ok (PyVal.dict "some diagnostic") ∧
    Step.check_with_messages c2w_step c2w_sub = Except.ok (PyVal.dict "some diagnostic") :=
  ⟨rfl, (C2_amended_normalization c2w_step c2w_sub (Or.inl rfl)).1 "some diagnostic" rfl⟩

/-- Counterexample to C3 as stated: `c3_sub`'s source fails to parse, yet the
entry point returns the "must define" diagnostic dict, not `false`: the
ExerciseStep check for a learner-named function never parses the submission
source. -/
theorem C3_counterexample :
    parseSrc c3_sub.input = Except.error SyntaxErr.syntaxError ∧
    Page.check_step (ExerciseStep.toStep c3_exercise Option.none []) c3_sub =
      PyVal.dict "You must define a function `double`" ∧
    Page.check_step (ExerciseStep.toStep c3_exercise Option.none []) c3_sub ≠ PyVal.bool false :=
  ⟨rfl, rfl, by decide⟩

/-- C3 amended: a parse fault is always caught at the entry point — any
`SyntaxError` surfacing from a check yields `False`, never a propagated fault —
and for every step whose check parses the submission source, in particular every
VerbatimStep, an unparseable submission yields `False`. -/
theorem C3_amended_parse_fault :
    (∀ (s : StepSpec) (a : Submission) (e : SyntaxErr),
      Step.check_with_messages s a = Except.error e → Page.check_step s a = PyVal.bool false) ∧
    (∀ (program : Src) (expected : Option String) (msgs : List MessageSpec) (a : Submission),
      a.input = Option.none →
      Page.check_step (VerbatimStep.toStep program expected msgs) a = PyVal.bool false) := by
  constructor
  · intro s a e h
    unfold Page.check_step
    rw [h]
  · intro program expected msgs a h
    unfold Page.check_step Step.check_with_messages
    cases hg : (match expected with
        | Option.none => false
        | some e => e != a.code_source) with
    | true => simp [VerbatimStep.toStep, hg]
    | false =>
      simp [VerbatimStep.toStep, hg, VerbatimStep.check, Step.tree_matches, h, parseSrc]

/-- Witness for C3 at a concrete input: an unparseable submission to a verbatim
step yields `False`. -/
theorem C3_witness :
    c3w_sub.input = Option.none ∧
    Page.check_step (VerbatimStep.toStep (some (PyTree.name "x")) Option.none []) c3w_sub =
      PyVal.bool false :=
  ⟨rfl, C3_amended_parse_fault.2 (some (PyTree.name "x")) Option.none [] c3w_sub rfl⟩

/-- Counterexample to C6 as stated: parameter `x` of `c6_solution` has no type
annotation, yet input generation succeeds with an empty mapping — `x` is silently
omitted (absent from `get_type_hints`) instead of raising a TypeNotSupported
diagnostic. -/
theorem C6_counterexample :
    (⟨"x", Option.none⟩ : Param) ∈ c6_solution.params ∧
    ExerciseStep.generate_inputs c6_solution = Except.ok [] :=
  ⟨by decide, rfl⟩

/-- C6 amended: the Input Generator fails with TypeNotSupported when an annotated
parameter's type cannot be synthesized; parameters without any annotation are
simply absent from `get_type_hints` and hence from the generated inputs — the
generated names are exactly the annotated parameter names. -/
theorem C6_amended_input_generation (sol : SolutionFunc) :
    (∀ nt ∈ get_type_hints sol,
      generate_for_type nt.2 = Except.error GenFault.typeNotSupported →
      ExerciseStep.generate_inputs sol = Except.error GenFault.typeNotSupported) ∧
    (∀ r, ExerciseStep.generate_inputs sol = Except.ok r →
      r.map Prod.fst = (get_type_hints sol).map Prod.fst) := by
  constructor
  · intro nt hmem herr
    exact generate_inputs_list_error (get_type_hints sol) nt hmem herr
  · intro r h
    exact generate_inputs_list_names (get_type_hints sol) r h

/-- Witness for C6 at a concrete input: a parameter annotated with an unsupported
type makes generation fail with TypeNotSupported. -/
theorem C6_witness :
    (("y", PyType.unsupported) ∈ get_type_hints c6w_solution) ∧
    ExerciseStep.generate_inputs c6w_solution = Except.error GenFault.typeNotSupported :=
  ⟨by decide,
   (C6_amended_input_generation c6w_solution).1 ("y", PyType.unsupported) (by decide) rfl⟩
